import Mathlib

set_option maxRecDepth 4096

/-!
# Verification of the `nexigon-multiplex` and `nexigon-rpc` crates

A shallow embedding of the nexigon connection multiplexer
(`crates/libs/nexigon-multiplex/src/{frames.rs, lib.rs}`) and of the framed
RPC layer (`crates/libs/nexigon-rpc/src/lib.rs`), together with theorems
about the embedded definitions.

Modelling conventions:
* Machine integers (`u8`, `u32`, `u64`) are modelled as `Nat`; where the Rust
  code can wrap (release-mode arithmetic on `u32`), the model reduces modulo
  `2^32` explicitly.
* Byte buffers (`Bytes`) are `List Nat`, one element per byte.
* Async polling is modelled by pure step functions returning a `Poll` value
  and the successor state.  Waker registration, timestamps, and the
  floating-point bandwidth EMAs are not observable by any claim and are left
  out of the state; where a branch depends on wall-clock time versus the RTT
  estimate, the step function takes the outcome of that comparison as a
  `Bool` parameter, covering every possible timing.
-/

namespace Nexigon

/-- `2^32`, the modulus of Rust `u32` arithmetic. -/
def U32 : Nat := 4294967296

/-- `2^64`, the modulus of Rust `u64` arithmetic. -/
def U64 : Nat := 18446744073709551616

/-- Big-endian byte encoding of a `u32` (`u32::to_be_bytes`). -/
def u32be (n : Nat) : List Nat :=
  [n / 16777216 % 256, n / 65536 % 256, n / 256 % 256, n % 256]

/-- Big-endian byte encoding of a `u64` (`u64::to_be_bytes`, used by
`ChannelId::to_bytes`). -/
def u64be (n : Nat) : List Nat :=
  [n / 72057594037927936 % 256, n / 281474976710656 % 256,
   n / 1099511627776 % 256, n / 4294967296 % 256,
   n / 16777216 % 256, n / 65536 % 256, n / 256 % 256, n % 256]

/-- Big-endian value of a byte string (`u32::from_be_bytes` /
`u64::from_be_bytes` on the respective slice). -/
def beVal (l : List Nat) : Nat := l.foldl (fun a b => 256 * a + b) 0

theorem beVal_u32be (n : Nat) (h : n < U32) : beVal (u32be n) = n := by
  simp only [beVal, u32be, List.foldl]
  simp only [U32] at h
  omega

theorem beVal_u64be (n : Nat) (h : n < U64) : beVal (u64be n) = n := by
  simp only [beVal, u64be, List.foldl]
  simp only [U64] at h
  omega

/-! ## Frame codec (`frames.rs`)

The Rust code represents a frame as its raw byte buffer together with getter
functions that decode the fields at fixed offsets; `Frame::parse` only checks
the tag and the minimal length.  The embedding fuses `Frame::parse` with the
generated getters: `parse` decodes a byte string directly into a `FrameVal`
holding the field values, and `encode` is the generated `new` constructor
(tag byte followed by the encoded fields). -/

/-- Protocol magic (`PROTOCOL_MAGIC` in `frames.rs`). -/
def PROTOCOL_MAGIC : List Nat :=
  [27, 27, 46, 134, 44, 205, 244, 157, 82, 109, 227, 13, 167, 171, 225, 140]

/-- A frame, by field values.  One constructor per variant of
`define_frame_types!`, fields in declaration order. -/
inductive FrameVal where
  | hello (magic : List Nat) (info : List Nat)
  | close (reason : List Nat)
  | channelRequest (senderId frameCredit byteCredit : Nat) (endpoint : List Nat)
  | channelAccept (receiverId senderId frameCredit byteCredit : Nat)
  | channelReject (receiverId : Nat) (reason : List Nat)
  | channelData (receiverId : Nat) (payload : List Nat)
  | channelAdjust (receiverId frameCredit byteCredit : Nat)
  | channelClose (receiverId : Nat) (reason : List Nat)
  | channelClosed (receiverId : Nat) (reason : List Nat)
  | ping
  | pong
deriving DecidableEq, Repr

/-- `InvalidFrameError` from `frames.rs`. -/
inductive InvalidFrameError where
  | invalidTag (tag : Nat)
  | invalidLength (expected : Nat)
deriving DecidableEq, Repr

/-- The `new` constructor generated by `define_frame_types!`: the tag byte
followed by each field encoded in order (`ChannelId` as 8 big-endian bytes,
`u32` as 4 big-endian bytes, byte fields verbatim). -/
def encode : FrameVal → List Nat
  | .hello magic info => 0 :: (magic ++ info)
  | .close reason => 255 :: reason
  | .channelRequest sid fc bc ep => 16 :: (u64be sid ++ u32be fc ++ u32be bc ++ ep)
  | .channelAccept rid sid fc bc => 17 :: (u64be rid ++ u64be sid ++ u32be fc ++ u32be bc)
  | .channelReject rid reason => 18 :: (u64be rid ++ reason)
  | .channelData rid payload => 19 :: (u64be rid ++ payload)
  | .channelAdjust rid fc bc => 20 :: (u64be rid ++ u32be fc ++ u32be bc)
  | .channelClose rid reason => 21 :: (u64be rid ++ reason)
  | .channelClosed rid reason => 23 :: (u64be rid ++ reason)
  | .ping => [32]
  | .pong => [33]

/-- `Frame::parse` fused with the generated field getters.  An empty message
is `InvalidLength(1)`; a known tag with fewer than `MIN_FRAME_SIZE` bytes is
`InvalidLength(MIN_FRAME_SIZE)`; an unknown tag is `InvalidTag`.  Fixed-size
fields are decoded from their offset slices, the trailing variable-length
field is the remainder of the message. -/
def parse (bs : List Nat) : Except InvalidFrameError FrameVal :=
  match bs with
  | [] => .error (.invalidLength 1)
  | tag :: rest =>
    if tag = 0 then
      if bs.length < 17 then .error (.invalidLength 17)
      else .ok (.hello (rest.take 16) (rest.drop 16))
    else if tag = 255 then
      .ok (.close rest)
    else if tag = 16 then
      if bs.length < 17 then .error (.invalidLength 17)
      else .ok (.channelRequest (beVal (rest.take 8)) (beVal ((rest.drop 8).take 4))
        (beVal ((rest.drop 12).take 4)) (rest.drop 16))
    else if tag = 17 then
      if bs.length < 25 then .error (.invalidLength 25)
      else .ok (.channelAccept (beVal (rest.take 8)) (beVal ((rest.drop 8).take 8))
        (beVal ((rest.drop 16).take 4)) (beVal ((rest.drop 20).take 4)))
    else if tag = 18 then
      if bs.length < 9 then .error (.invalidLength 9)
      else .ok (.channelReject (beVal (rest.take 8)) (rest.drop 8))
    else if tag = 19 then
      if bs.length < 9 then .error (.invalidLength 9)
      else .ok (.channelData (beVal (rest.take 8)) (rest.drop 8))
    else if tag = 20 then
      if bs.length < 17 then .error (.invalidLength 17)
      else .ok (.channelAdjust (beVal (rest.take 8)) (beVal ((rest.drop 8).take 4))
        (beVal ((rest.drop 12).take 4)))
    else if tag = 21 then
      if bs.length < 9 then .error (.invalidLength 9)
      else .ok (.channelClose (beVal (rest.take 8)) (rest.drop 8))
    else if tag = 23 then
      if bs.length < 9 then .error (.invalidLength 9)
      else .ok (.channelClosed (beVal (rest.take 8)) (rest.drop 8))
    else if tag = 32 then .ok .ping
    else if tag = 33 then .ok .pong
    else .error (.invalidTag tag)

/-- Well-formed field values: ids fit in `u64`, credits fit in `u32`, and the
magic is 16 bytes, exactly as the Rust field types (`ChannelId`, `u32`,
`&[u8; 16]`) enforce. -/
def FrameVal.wf : FrameVal → Prop
  | .hello magic _ => magic.length = 16
  | .close _ => True
  | .channelRequest sid fc bc _ => sid < U64 ∧ fc < U32 ∧ bc < U32
  | .channelAccept rid sid fc bc => rid < U64 ∧ sid < U64 ∧ fc < U32 ∧ bc < U32
  | .channelReject rid _ => rid < U64
  | .channelData rid _ => rid < U64
  | .channelAdjust rid fc bc => rid < U64 ∧ fc < U32 ∧ bc < U32
  | .channelClose rid _ => rid < U64
  | .channelClosed rid _ => rid < U64
  | .ping => True
  | .pong => True

/-! ## Channel receiver (`lib.rs`)

`ReceiverShared` is the mutex-protected state shared between the connection
task and the `Receiver` half; `Receiver::poll_next_chunk` and
`Receiver::poll_read` are modelled as pure step functions. -/

/-- `std::task::Poll`. -/
inductive Poll (A : Type) where
  | ready (value : A)
  | pending
deriving DecidableEq, Repr

/-- `ReceiverShared` (`lib.rs`): the buffered data frames (by payload), the
remote-closed flag, the dynamically grown maximum credits and the remaining
credits.  The waker, the timestamp of the last credit update and the
floating-point bandwidth EMAs are omitted (see the module doc comment). -/
structure RecvState where
  buffer : List (List Nat)
  closed : Bool
  maxFrameCredit : Nat
  maxByteCredit : Nat
  remainingFrameCredit : Nat
  remainingByteCredit : Nat
deriving DecidableEq, Repr

/-- `ReceiverShared::new`: empty buffer, not closed, 128 frame credits and
16 KiB byte credits for both the maxima and the remaining credits. -/
def RecvState.init : RecvState :=
  { buffer := []
    closed := false
    maxFrameCredit := 128
    maxByteCredit := 16384
    remainingFrameCredit := 128
    remainingByteCredit := 16384 }

/-- `CHANNEL_MAX_FRAME_CREDIT` (`lib.rs`). -/
def CHANNEL_MAX_FRAME_CREDIT : Nat := 1024

/-- `CHANNEL_MAX_BYTE_CREDIT` (`lib.rs`): 1024 MiB. -/
def CHANNEL_MAX_BYTE_CREDIT : Nat := 1073741824

/-- `Receiver::poll_next_chunk`.  `fastFrame` / `fastByte` are the outcomes
of the two `last_credit_update.elapsed() < 2 * smoothened_rtt` tests (each
taken as `false` when no RTT estimate is known yet).  The `ChannelAdjust`
frame sent on credit replenishment goes to the connection's outbound queue
and does not affect the receiver state; decrements use wrapping `u32`
arithmetic as in release-mode Rust. -/
def pollNextChunk (fastFrame fastByte : Bool) (s : RecvState) :
    Poll (Option (List Nat)) × RecvState :=
  if s.closed then (.ready none, s)
  else
    match s.buffer with
    | [] => (.pending, s)
    | frame :: rest =>
      let s1 : RecvState := { s with
        buffer := rest
        remainingFrameCredit := (s.remainingFrameCredit + (U32 - 1)) % U32
        remainingByteCredit :=
          (s.remainingByteCredit + (U32 - frame.length % U32)) % U32 }
      let doubleFrame := s1.remainingFrameCredit < s1.maxFrameCredit / 2
      let s2 := if doubleFrame ∧ fastFrame then
          { s1 with
            maxFrameCredit := min (s1.maxFrameCredit * 2 % U32) CHANNEL_MAX_FRAME_CREDIT }
        else s1
      let doubleByte := s2.remainingByteCredit < s2.maxByteCredit / 2
      let s3 := if doubleByte ∧ fastByte then
          { s2 with
            maxByteCredit := min (s2.maxByteCredit * 2 % U32) CHANNEL_MAX_BYTE_CREDIT }
        else s2
      let s4 := if doubleFrame ∨ doubleByte then
          { s3 with
            remainingFrameCredit := s3.maxFrameCredit
            remainingByteCredit := s3.maxByteCredit }
        else s3
      (.ready (some frame), s4)

/-- `Receiver`: the shared state plus the partially consumed chunk.  The
source keeps the whole frame bytes and an offset starting at the 9-byte
header; the model keeps the payload and the offset relative to it. -/
structure ReceiverModel where
  shared : RecvState
  pending : Option (List Nat)
  offsetInChunk : Nat
deriving DecidableEq, Repr

/-- `<Receiver as AsyncRead>::poll_read`.  One loop iteration serves from the
pending chunk if there is one; otherwise it polls the next chunk and, if one
arrives, installs it and serves from it on the next iteration.  When the
chunk stream ends (`poll_next` returns `Ready(None)`), the source returns
`Poll::Pending`. -/
def pollRead (fastFrame fastByte : Bool) (bufLen : Nat) (r : ReceiverModel) :
    Poll Nat × ReceiverModel :=
  match r.pending with
  | some p =>
    let bytes := min (p.length - r.offsetInChunk) bufLen
    let newOffset := r.offsetInChunk + bytes
    (.ready bytes,
      if p.length ≤ newOffset then
        { r with pending := none, offsetInChunk := newOffset }
      else { r with offsetInChunk := newOffset })
  | none =>
    match pollNextChunk fastFrame fastByte r.shared with
    | (.ready (some chunk), sh) =>
      let bytes := min chunk.length bufLen
      ( .ready bytes,
        { shared := sh
          pending := if chunk.length ≤ bytes then none else some chunk
          offsetInChunk := bytes } )
    | (.ready none, sh) => (.pending, { r with shared := sh })
    | (.pending, sh) => (.pending, { r with shared := sh })

/-! ## Channel sender (`lib.rs`) -/

/-- `ChannelSendError` (`lib.rs`). -/
inductive ChannelSendError where
  | chunkTooLarge
  | closed
deriving DecidableEq, Repr

/-- I/O error kinds surfaced by the channel endpoints. -/
inductive IoErrorKind where
  | brokenPipe
deriving DecidableEq, Repr

/-- `SenderShared` (`lib.rs`): the half-closed-by-peer flag (with the reason
carried by the peer's `ChannelClose` frame), the remaining credits, and the
used-credit counters since the last credit update.  The waker, the timestamp
and the floating-point bandwidth EMAs are omitted. -/
structure SenderSharedSt where
  closedReason : Option (List Nat)
  remainingFrameCredit : Nat
  remainingByteCredit : Nat
  usedFrameCredit : Nat
  usedByteCredit : Nat
deriving DecidableEq, Repr

/-- `SenderShared::new(initial_frame_credit, initial_byte_credit)`. -/
def SenderSharedSt.init (initialFrameCredit initialByteCredit : Nat) : SenderSharedSt :=
  { closedReason := none
    remainingFrameCredit := initialFrameCredit
    remainingByteCredit := initialByteCredit
    usedFrameCredit := 0
    usedByteCredit := 0 }

/-- `Sender`: remote channel id, shared state, and the pending chunk (by
payload). -/
structure SenderModel where
  remoteId : Nat
  shared : SenderSharedSt
  pending : Option (List Nat)
deriving DecidableEq, Repr

/-- `Sender::poll_send_chunk`.  Returns the poll result, the successor
state, and the data frame handed to the connection's outbound queue, if any.
Credit arithmetic wraps as `u32`; the source asserts
`remaining_byte_credit >= byte_credit` before decrementing. -/
def pollSendChunk (s : SenderModel) :
    Poll (Except ChannelSendError Unit) × SenderModel × List FrameVal :=
  if s.shared.closedReason.isSome then (.ready (.error .closed), s, [])
  else
    match s.pending with
    | none => (.ready (.ok ()), s, [])
    | some chunk =>
      let byteCredit := chunk.length % U32
      if 0 < s.shared.remainingFrameCredit then
        let sh := { s.shared with
          remainingFrameCredit := (s.shared.remainingFrameCredit + (U32 - 1)) % U32
          remainingByteCredit := (s.shared.remainingByteCredit + (U32 - byteCredit)) % U32
          usedFrameCredit := (s.shared.usedFrameCredit + 1) % U32
          usedByteCredit := (s.shared.usedByteCredit + byteCredit) % U32 }
        (.ready (.ok ()), { s with shared := sh, pending := none },
          [.channelData s.remoteId chunk])
      else (.pending, s, [])

/-- `<Sender as AsyncWrite>::poll_flush`: drive the pending chunk; a closed
channel surfaces as a `BrokenPipe` I/O error. -/
def senderPollFlush (s : SenderModel) :
    Poll (Except IoErrorKind Unit) × SenderModel × List FrameVal :=
  match pollSendChunk s with
  | (.ready (.ok _), s1, fs) => (.ready (.ok ()), s1, fs)
  | (.ready (.error _), s1, fs) => (.ready (.error .brokenPipe), s1, fs)
  | (.pending, s1, fs) => (.pending, s1, fs)

/-- `<Sender as AsyncWrite>::poll_write`: flush the pending chunk first; with
fewer than 512 remaining byte credits park and return `Pending`; otherwise
stage `min(remaining_byte_credit, buf.len())` bytes from the front of `buf`
as the new pending chunk and return that count. -/
def pollWrite (buf : List Nat) (s : SenderModel) :
    Poll (Except IoErrorKind Nat) × SenderModel × List FrameVal :=
  match senderPollFlush s with
  | (.pending, s1, fs) => (.pending, s1, fs)
  | (.ready (.error e), s1, fs) => (.ready (.error e), s1, fs)
  | (.ready (.ok _), s1, fs) =>
    if s1.shared.remainingByteCredit < 512 then (.pending, s1, fs)
    else
      let chunkSize := min s1.shared.remainingByteCredit buf.length
      (.ready (.ok chunkSize), { s1 with pending := some (buf.take chunkSize) }, fs)

/-! ## Connection core (`lib.rs`) -/

/-- `ProtocolViolation` (`lib.rs`): carries the static message string. -/
structure ProtocolViolation where
  msg : String
deriving DecidableEq, Repr

/-- `ChannelHandle` (`lib.rs`): the per-channel shared state stored in the
connection's channel map. -/
structure ChannelHandleSt where
  localId : Nat
  remoteId : Nat
  senderShared : SenderSharedSt
  receiverShared : RecvState
deriving DecidableEq, Repr

/-- `Channel::new`: the sender half starts with 128 frame credits and
`16 * KIB = 16384` byte credits, the receiver half with `ReceiverShared::new`
(the same fixed initial maxima).  The credit fields of the frame that caused
the channel to be created are not consulted. -/
def ChannelHandleSt.init (localId remoteId : Nat) : ChannelHandleSt :=
  { localId := localId
    remoteId := remoteId
    senderShared := SenderSharedSt.init 128 16384
    receiverShared := RecvState.init }

/-- `ConnectionEvent` (`lib.rs`).  `requestChannel` carries the fields of the
`ChannelRequest` frame held by the emitted handle. -/
inductive ConnEvent where
  | connected
  | closed
  | requestChannel (senderId frameCredit byteCredit : Nat) (endpoint : List Nat)
deriving DecidableEq, Repr

/-- `Connection` (`lib.rs`): the closed flag, the next locally-assigned
channel id, the set of pending open-requests (by local id), the channel map
(association list keyed by local id, most recent insertion first), and the
ping bookkeeping (`last_ping` as an absolute time in nanoseconds,
`pong_received`, `smoothened_rtt` in nanoseconds). -/
structure ConnState where
  connClosed : Bool
  nextChannelId : Nat
  pendingRequests : List Nat
  channels : List (Nat × ChannelHandleSt)
  lastPing : Option Nat
  pongReceived : Bool
  smoothenedRtt : Option Nat
deriving DecidableEq, Repr

/-- `Connection::new`: not closed, next channel id 1, no pending requests,
no channels, no ping sent yet, `pong_received = true`, no RTT estimate.
(The `Hello` frame enqueued by the constructor lives on the outbound queue,
not in this state.) -/
def ConnState.init : ConnState :=
  { connClosed := false
    nextChannelId := 1
    pendingRequests := []
    channels := []
    lastPing := none
    pongReceived := true
    smoothenedRtt := none }

/-- `HashMap::get` on the channel map. -/
def lookupChannel (channels : List (Nat × ChannelHandleSt)) (id : Nat) :
    Option ChannelHandleSt :=
  match channels with
  | [] => none
  | (key, handle) :: rest => if key = id then some handle else lookupChannel rest id

/-- In-place mutation of the channel found by `HashMap::get_mut`. -/
def updateChannel (channels : List (Nat × ChannelHandleSt)) (id : Nat)
    (f : ChannelHandleSt → ChannelHandleSt) : List (Nat × ChannelHandleSt) :=
  match channels with
  | [] => []
  | (key, handle) :: rest =>
    if key = id then (key, f handle) :: rest
    else (key, handle) :: updateChannel rest id f

/-- The `ChannelData` arm of `Connection::handle_frame`: an unknown
`receiver_id` is silently ignored; a known channel with no remaining frame
credit, or whose remaining byte credit is smaller than the payload length
(as `u32`), is a protocol violation; otherwise the frame is pushed onto the
channel's receive queue (and the reader is woken). -/
def handleChannelData (channels : List (Nat × ChannelHandleSt)) (rid : Nat)
    (payload : List Nat) :
    Except ProtocolViolation (List (Nat × ChannelHandleSt)) :=
  match lookupChannel channels rid with
  | none => .ok channels
  | some handle =>
    if handle.receiverShared.remainingFrameCredit = 0 then
      .error ⟨"no frame credit remaining"⟩
    else if handle.receiverShared.remainingByteCredit < payload.length % U32 then
      .error ⟨"not enough byte credit"⟩
    else
      .ok (updateChannel channels rid (fun h =>
        { h with receiverShared :=
            { h.receiverShared with
              buffer := h.receiverShared.buffer ++ [payload] } }))

/-- `Connection::handle_pong` at absolute time `now` (nanoseconds): a pong
with `last_ping == None` is a protocol violation; otherwise `pong_received`
is set and the smoothed RTT becomes `old * 7 / 8 + latest / 8` (or the raw
latest sample when there is no previous estimate). -/
def handlePong (now : Nat) (s : ConnState) : Except ProtocolViolation ConnState :=
  match s.lastPing with
  | none => .error ⟨"received pong but no ping has been sent"⟩
  | some t =>
    let latestRtt := now - t
    let newRtt :=
      match s.smoothenedRtt with
      | some old => old * 7 / 8 + latestRtt / 8
      | none => latestRtt
    .ok { s with pongReceived := true, smoothenedRtt := some newRtt }

/-- `Connection::ping` at absolute time `now`: when a pong is still
outstanding, do nothing; otherwise, if the keepalive interval fired
(`tick`), record the ping time, clear `pong_received` and emit a `Ping`
frame. -/
def pingStep (now : Nat) (tick : Bool) (s : ConnState) : ConnState × List FrameVal :=
  if s.pongReceived = false then (s, [])
  else if tick then
    ({ s with pongReceived := false, lastPing := some now }, [.ping])
  else (s, [])

/-- `Connection::handle_frame` at absolute time `now`.  Returns the
successor state, the event surfaced to the owner (if any), and the frames
enqueued on the outbound queue (if any). -/
def handleFrame (now : Nat) (s : ConnState) (f : FrameVal) :
    Except ProtocolViolation (ConnState × Option ConnEvent × List FrameVal) :=
  match f with
  | .hello _magic _info => .ok (s, some .connected, [])
  | .close _reason => .ok ({ s with connClosed := true }, some .closed, [])
  | .channelRequest sid fc bc ep =>
    .ok (s, some (.requestChannel sid fc bc ep), [])
  | .channelAccept rid sid _fc _bc =>
    -- `make_channel(local_id, remote_id)` inserts the fresh channel first;
    -- only then is the pending open-request looked up.
    let s1 := { s with channels := (rid, ChannelHandleSt.init rid sid) :: s.channels }
    if s.pendingRequests.contains rid then
      .ok ({ s1 with pendingRequests := s1.pendingRequests.filter (fun id => id ≠ rid) },
        none, [])
    else .error ⟨"channel request not found"⟩
  | .channelReject rid _reason =>
    if s.pendingRequests.contains rid then
      .ok ({ s with pendingRequests := s.pendingRequests.filter (fun id => id ≠ rid) },
        none, [])
    else .error ⟨"channel request not found"⟩
  | .channelData rid payload =>
    match handleChannelData s.channels rid payload with
    | .error v => .error v
    | .ok cs => .ok ({ s with channels := cs }, none, [])
  | .channelAdjust rid fc bc =>
    .ok ({ s with channels := updateChannel s.channels rid (fun h =>
        { h with senderShared := { h.senderShared with
            remainingFrameCredit := (h.senderShared.remainingFrameCredit + fc) % U32
            remainingByteCredit := (h.senderShared.remainingByteCredit + bc) % U32
            usedFrameCredit := 0
            usedByteCredit := 0 } }) },
      none, [])
  | .channelClose rid reason =>
    .ok ({ s with channels := updateChannel s.channels rid (fun h =>
        { h with senderShared := { h.senderShared with closedReason := some reason } }) },
      none, [])
  | .channelClosed rid _reason =>
    .ok ({ s with channels := updateChannel s.channels rid (fun h =>
        { h with receiverShared := { h.receiverShared with closed := true } }) },
      none, [])
  | .ping => .ok (s, none, [.pong])
  | .pong =>
    match handlePong now s with
    | .error v => .error v
    | .ok s1 => .ok (s1, none, [])

/-- `ConnectionCmd` (`lib.rs`). -/
inductive ConnCmd where
  | openChannel (request : FrameVal)
  | acceptChannel (accept : FrameVal)
deriving DecidableEq, Repr

/-- `Connection::handle_cmd`: `OpenChannel` assigns a fresh local id,
patches it into the request as `sender_id`, enqueues the request and records
the pending open; `AcceptChannel` assigns a fresh local id, patches it into
the accept frame as `sender_id`, enqueues the accept and inserts a new
channel bound to `(local_id, accept.receiver_id())`.  Commands carrying a
frame of the wrong variant do not occur in the source (the fields are typed)
and leave the state unchanged. -/
def handleCmd (s : ConnState) (cmd : ConnCmd) : ConnState × List FrameVal :=
  match cmd with
  | .openChannel (.channelRequest _sid fc bc ep) =>
    let localId := s.nextChannelId
    ({ s with
        nextChannelId := s.nextChannelId + 1
        pendingRequests := localId :: s.pendingRequests },
      [.channelRequest localId fc bc ep])
  | .acceptChannel (.channelAccept rid _sid fc bc) =>
    let localId := s.nextChannelId
    ({ s with
        nextChannelId := s.nextChannelId + 1
        channels := (localId, ChannelHandleSt.init localId rid) :: s.channels },
      [.channelAccept rid localId fc bc])
  | _ => (s, [])

/-! ## Receiver state over time

Everything that ever touches a channel's `ReceiverShared` after creation:
the `ChannelData` and `ChannelClosed` arms of `Connection::handle_frame`,
and `Receiver::poll_next_chunk` (also reached through `poll_read`). -/

/-- One operation on a receiver's shared state. -/
inductive RecvOp where
  | dataArrived (payload : List Nat)
  | remoteClosed
  | nextChunk (fastFrame fastByte : Bool)
deriving DecidableEq, Repr

/-- Apply one operation.  A `ChannelData` frame that violates the credit
bounds terminates the connection and leaves the channel state unchanged. -/
def recvStep (op : RecvOp) (s : RecvState) : RecvState :=
  match op with
  | .dataArrived payload =>
    if s.remainingFrameCredit = 0 then s
    else if s.remainingByteCredit < payload.length % U32 then s
    else { s with buffer := s.buffer ++ [payload] }
  | .remoteClosed => { s with closed := true }
  | .nextChunk fastFrame fastByte => (pollNextChunk fastFrame fastByte s).2

/-- Apply a sequence of operations, oldest first. -/
def recvRun (ops : List RecvOp) (s : RecvState) : RecvState :=
  ops.foldl (fun acc op => recvStep op acc) s

/-! ## RPC layer (`nexigon-rpc/src/lib.rs`) -/

/-- Stand-in for `std::io::Error` values (e.g. the OS error code). -/
abbrev IoError := Nat

/-- `ExecuteError` (`nexigon-rpc`). -/
inductive ExecuteError where
  | read (e : IoError)
  | write (e : IoError)
  | malformedOutput
  | outputTooLarge (size : Nat)
deriving DecidableEq, Repr

/-- `MAX_OUTPUT_SIZE` (`nexigon-rpc`): 8 MiB. -/
def MAX_OUTPUT_SIZE : Nat := 8388608

/-- The request-sending async block of `execute` (`nexigon-rpc`): write the
length-prefixed request buffer, then flush, mapping each transport failure
with `.map_err(ExecuteError::Read)` exactly as the source does. -/
def executeSendPart (writeAllRes flushRes : Except IoError Unit) :
    Except ExecuteError Unit :=
  match writeAllRes with
  | .error e => .error (.read e)
  | .ok _ =>
    match flushRes with
    | .error e => .error (.read e)
    | .ok _ => .ok ()

/-- The response-reading async block of `execute` (`nexigon-rpc`): read the
4-byte big-endian output size (`readSizeRes`), reject sizes above
`MAX_OUTPUT_SIZE`, then read that many output bytes (`readBodyRes`);
transport failures map to `ExecuteError::Read`. -/
def executeRecvPart (readSizeRes : Except IoError (List Nat))
    (readBodyRes : Nat → Except IoError (List Nat)) :
    Except ExecuteError (List Nat) :=
  match readSizeRes with
  | .error e => .error (.read e)
  | .ok sizeBytes =>
    let outputSize := beVal (sizeBytes.take 4)
    if MAX_OUTPUT_SIZE < outputSize then .error (.outputTooLarge outputSize)
    else
      match readBodyRes outputSize with
      | .error e => .error (.read e)
      | .ok body => .ok body

/-- C3: for every frame variant and every choice of its field values (within
the ranges of the Rust field types), parsing the byte encoding produced by
that variant's constructor yields the same variant with the same field
values: `parse (encode v) = v`. -/
theorem parse_encode_roundtrip (v : FrameVal) (h : v.wf) :
    parse (encode v) = .ok v := by
  cases v with
  | hello magic info =>
    have hm : magic.length = 16 := h
    have hlen : ¬ ((0 :: (magic ++ info)).length < 17) := by simp [hm]
    show (if (0 :: (magic ++ info)).length < 17
        then (Except.error (InvalidFrameError.invalidLength 17) : Except InvalidFrameError FrameVal)
        else Except.ok (FrameVal.hello ((magic ++ info).take 16) ((magic ++ info).drop 16)))
      = Except.ok (FrameVal.hello magic info)
    rw [if_neg hlen, List.take_left' hm, List.drop_left' hm]
  | close reason => rfl
  | channelRequest sid fc bc ep =>
    obtain ⟨h1, h2, h3⟩ := h
    have hlen : ¬ ((16 :: (u64be sid ++ (u32be fc ++ (u32be bc ++ ep)))).length < 17) := by
      simp [u64be, u32be]
    show (if (16 :: (u64be sid ++ (u32be fc ++ (u32be bc ++ ep)))).length < 17
        then (Except.error (InvalidFrameError.invalidLength 17) : Except InvalidFrameError FrameVal)
        else Except.ok (FrameVal.channelRequest (beVal (u64be sid)) (beVal (u32be fc))
          (beVal (u32be bc)) ep))
      = Except.ok (FrameVal.channelRequest sid fc bc ep)
    rw [if_neg hlen, beVal_u64be sid h1, beVal_u32be fc h2, beVal_u32be bc h3]
  | channelAccept rid sid fc bc =>
    obtain ⟨h1, h2, h3, h4⟩ := h
    show (Except.ok (.channelAccept (beVal (u64be rid)) (beVal (u64be sid))
        (beVal (u32be fc)) (beVal (u32be bc))) : Except InvalidFrameError FrameVal)
      = .ok (.channelAccept rid sid fc bc)
    rw [beVal_u64be rid h1, beVal_u64be sid h2, beVal_u32be fc h3, beVal_u32be bc h4]
  | channelReject rid reason =>
    have hlen : ¬ ((18 :: (u64be rid ++ reason)).length < 9) := by simp [u64be]
    show (if (18 :: (u64be rid ++ reason)).length < 9
        then (Except.error (InvalidFrameError.invalidLength 9) : Except InvalidFrameError FrameVal)
        else Except.ok (FrameVal.channelReject (beVal (u64be rid)) reason))
      = Except.ok (FrameVal.channelReject rid reason)
    rw [if_neg hlen, beVal_u64be rid h]
  | channelData rid payload =>
    have hlen : ¬ ((19 :: (u64be rid ++ payload)).length < 9) := by simp [u64be]
    show (if (19 :: (u64be rid ++ payload)).length < 9
        then (Except.error (InvalidFrameError.invalidLength 9) : Except InvalidFrameError FrameVal)
        else Except.ok (FrameVal.channelData (beVal (u64be rid)) payload))
      = Except.ok (FrameVal.channelData rid payload)
    rw [if_neg hlen, beVal_u64be rid h]
  | channelAdjust rid fc bc =>
    obtain ⟨h1, h2, h3⟩ := h
    show (Except.ok (.channelAdjust (beVal (u64be rid)) (beVal (u32be fc)) (beVal (u32be bc)))
        : Except InvalidFrameError FrameVal)
      = .ok (.channelAdjust rid fc bc)
    rw [beVal_u64be rid h1, beVal_u32be fc h2, beVal_u32be bc h3]
  | channelClose rid reason =>
    have hlen : ¬ ((21 :: (u64be rid ++ reason)).length < 9) := by simp [u64be]
    show (if (21 :: (u64be rid ++ reason)).length < 9
        then (Except.error (InvalidFrameError.invalidLength 9) : Except InvalidFrameError FrameVal)
        else Except.ok (FrameVal.channelClose (beVal (u64be rid)) reason))
      = Except.ok (FrameVal.channelClose rid reason)
    rw [if_neg hlen, beVal_u64be rid h]
  | channelClosed rid reason =>
    have hlen : ¬ ((23 :: (u64be rid ++ reason)).length < 9) := by simp [u64be]
    show (if (23 :: (u64be rid ++ reason)).length < 9
        then (Except.error (InvalidFrameError.invalidLength 9) : Except InvalidFrameError FrameVal)
        else Except.ok (FrameVal.channelClosed (beVal (u64be rid)) reason))
      = Except.ok (FrameVal.channelClosed rid reason)
    rw [if_neg hlen, beVal_u64be rid h]
  | ping => rfl
  | pong => rfl

/-- Witness for C3: the round-trip theorem applied to a concrete
`ChannelAccept` frame. -/
theorem parse_encode_roundtrip_witness :
    (FrameVal.channelAccept 3 4 5 6).wf ∧
      parse (encode (FrameVal.channelAccept 3 4 5 6)) =
        Except.ok (FrameVal.channelAccept 3 4 5 6) :=
  ⟨by norm_num [FrameVal.wf, U64, U32],
   parse_encode_roundtrip _ (by norm_num [FrameVal.wf, U64, U32])⟩


/-- C1: after the peer's `ChannelClosed` frame has set the receiver-shared
remote-closed flag, `poll_read` (with no pending chunk left) does NOT
resolve to EOF: the source returns `Poll::Pending` when the chunk stream
ends, so the claimed `Ready` with 0 bytes never happens.  The receiver state
below is exactly the one reached from a fresh channel by handling an inbound
`ChannelClosed` frame. -/
theorem pollRead_after_remote_close_is_pending :
    (pollRead false false 4096
      { shared := recvStep RecvOp.remoteClosed RecvState.init
        pending := none
        offsetInChunk := 0 }).1 = Poll.pending ∧
    (pollRead false false 4096
      { shared := recvStep RecvOp.remoteClosed RecvState.init
        pending := none
        offsetInChunk := 0 }).1 ≠ Poll.ready 0 := by
  constructor
  · rfl
  · decide

/-- C2 counterexample: a receiver state reachable from a fresh channel (one
data frame buffered, then the peer's `ChannelClosed`) on which
`poll_next_chunk` returns `Ready(None)` although the receive queue is
non-empty — the closed check precedes the queue check, so the buffered frame
is never returned. -/
theorem pollNextChunk_closed_discards_buffer :
    (recvRun [RecvOp.dataArrived [1, 2, 3], RecvOp.remoteClosed] RecvState.init).buffer
        = [[1, 2, 3]] ∧
    (pollNextChunk false false
      (recvRun [RecvOp.dataArrived [1, 2, 3], RecvOp.remoteClosed] RecvState.init)).1
        = Poll.ready none := by
  constructor
  · decide
  · decide

/-- C2 (amended): `poll_next_chunk` returns `Ready(None)` whenever the
remote-closed flag is set, even if the receive queue is non-empty; when the
flag is clear it pops the head of a non-empty queue countered by decrementing
the remaining frame credit by 1 and the remaining byte credit by the payload
length, returning that chunk (credit replenishment may afterwards reset the
remaining credits to the maxima; the last conjunct isolates the pure
decrement under the no-replenishment conditions). -/
theorem pollNextChunk_spec (fastFrame fastByte : Bool) (s : RecvState) :
    (s.closed = true → pollNextChunk fastFrame fastByte s = (.ready none, s)) ∧
    (s.closed = false → s.buffer = [] →
      pollNextChunk fastFrame fastByte s = (.pending, s)) ∧
    (∀ p rest, s.closed = false → s.buffer = p :: rest →
      (pollNextChunk fastFrame fastByte s).1 = .ready (some p) ∧
      ((pollNextChunk fastFrame fastByte s).2).buffer = rest) ∧
    (∀ p rest, s.closed = false → s.buffer = p :: rest →
      1 ≤ s.remainingFrameCredit → s.remainingFrameCredit < U32 →
      p.length % U32 ≤ s.remainingByteCredit → s.remainingByteCredit < U32 →
      s.maxFrameCredit / 2 ≤ s.remainingFrameCredit - 1 →
      s.maxByteCredit / 2 ≤ s.remainingByteCredit - p.length % U32 →
      (pollNextChunk fastFrame fastByte s).2 = { s with
        buffer := rest
        remainingFrameCredit := s.remainingFrameCredit - 1
        remainingByteCredit := s.remainingByteCredit - p.length % U32 }) := by
  refine ⟨?_, ?_, ?_, ?_⟩
  · intro hc
    simp [pollNextChunk, hc]
  · intro hc hb
    simp [pollNextChunk, hc, hb]
  · intro p rest hc hb
    constructor
    · simp [pollNextChunk, hc, hb]
    · simp only [pollNextChunk, hc, hb, Bool.false_eq_true, if_false]
      repeat' split
      all_goals rfl
  · intro p rest hc hb h1 h2 h3 h4 h5 h6
    have hw1 : (s.remainingFrameCredit + (U32 - 1)) % U32 = s.remainingFrameCredit - 1 := by
      simp only [U32] at h2 ⊢
      omega
    have hw2 : (s.remainingByteCredit + (U32 - p.length % U32)) % U32
        = s.remainingByteCredit - p.length % U32 := by
      simp only [U32] at h3 h4 ⊢
      omega
    have hdf : ¬(s.remainingFrameCredit - 1 < s.maxFrameCredit / 2) := by omega
    have hdb : ¬(s.remainingByteCredit - p.length % U32 < s.maxByteCredit / 2) := by omega
    have hc1 : (s.remainingFrameCredit - 1 < s.maxFrameCredit / 2) = False := by
      simp [hdf]
    have hc2 : (s.remainingByteCredit - p.length % U32 < s.maxByteCredit / 2) = False := by
      simp [hdb]
    simp only [pollNextChunk, hc, hb, Bool.false_eq_true, if_false, hw1, hw2, hc1, hc2,
      false_and, false_or, or_false, or_self]


/-- Witness for the amended C2 at a concrete open receiver with one buffered
chunk of two bytes. -/
theorem pollNextChunk_spec_witness :
    (pollNextChunk false false
      { buffer := [[9, 9]], closed := false, maxFrameCredit := 128,
        maxByteCredit := 16384, remainingFrameCredit := 128,
        remainingByteCredit := 16384 }).1 = Poll.ready (some [9, 9]) ∧
    (pollNextChunk false false
      { buffer := [[9, 9]], closed := false, maxFrameCredit := 128,
        maxByteCredit := 16384, remainingFrameCredit := 128,
        remainingByteCredit := 16384 }).2
      = { buffer := [], closed := false, maxFrameCredit := 128,
          maxByteCredit := 16384, remainingFrameCredit := 127,
          remainingByteCredit := 16382 } := by
  have h := pollNextChunk_spec false false
    { buffer := [[9, 9]], closed := false, maxFrameCredit := 128,
      maxByteCredit := 16384, remainingFrameCredit := 128,
      remainingByteCredit := 16384 }
  refine ⟨(h.2.2.1 [9, 9] [] rfl rfl).1, ?_⟩
  rw [h.2.2.2 [9, 9] [] rfl rfl (by norm_num) (by norm_num [U32]) (by norm_num [U32])
    (by norm_num [U32]) (by norm_num) (by norm_num [U32])]
  rfl

/-- Any payload of length exactly `2^32` for channel id 7 (with the fresh
16384-byte credit) is pushed rather than rejected: the length truncates to
0 as `u32`, so the byte-credit check passes. -/
theorem handleChannelData_overU32_pushes (payload : List Nat)
    (hlen : payload.length = U32) :
    handleFrame 0 { ConnState.init with channels := [(7, ChannelHandleSt.init 7 2)] }
        (.channelData 7 payload)
      = .ok ({ ConnState.init with channels := [(7,
          { ChannelHandleSt.init 7 2 with receiverShared :=
            { RecvState.init with buffer := [payload] } })] }, none, []) := by
  simp only [handleFrame, handleChannelData, hlen, Nat.mod_self]
  norm_num [lookupChannel, updateChannel, ChannelHandleSt.init, RecvState.init,
    SenderSharedSt.init, ConnState.init]

/-- C4 counterexample: the claim fails at a payload of length `2^32` for a
known channel.  The source compares `remaining_byte_credit <
payload().len() as u32`; the cast truncates `2^32` to 0, so although the
payload length (`2^32`) exceeds the remaining byte credit (16384), handling
the frame is NOT a protocol violation — the frame is pushed. -/
theorem handleChannelData_truncation_counterexample :
    lookupChannel [(7, ChannelHandleSt.init 7 2)] 7 = some (ChannelHandleSt.init 7 2) ∧
    (ChannelHandleSt.init 7 2).receiverShared.remainingByteCredit
        < (List.replicate U32 0).length ∧
    (handleFrame 0 { ConnState.init with channels := [(7, ChannelHandleSt.init 7 2)] }
        (.channelData 7 (List.replicate U32 0))).isOk = true := by
  refine ⟨rfl, ?_, ?_⟩
  · rw [List.length_replicate]
    norm_num [ChannelHandleSt.init, RecvState.init, U32]
  · rw [handleChannelData_overU32_pushes (List.replicate U32 0) (List.length_replicate ..)]
    rfl

/-- C4 (amended): handling an inbound `ChannelData` frame is a protocol
violation iff the `receiver_id` is in the channel map and either the
remaining frame credit is 0 or the payload length truncated to `u32`
(`payload().len() as u32`) exceeds the remaining byte credit; an unknown
`receiver_id` is silently dropped (no event, no error, no state change);
otherwise the payload is pushed onto that channel's receive queue. -/
theorem handleChannelData_spec (now : Nat) (s : ConnState) (rid : Nat)
    (payload : List Nat) :
    ((handleFrame now s (.channelData rid payload)).isOk = false ↔
      ∃ h, lookupChannel s.channels rid = some h ∧
        (h.receiverShared.remainingFrameCredit = 0 ∨
          h.receiverShared.remainingByteCredit < payload.length % U32)) ∧
    (lookupChannel s.channels rid = none →
      handleFrame now s (.channelData rid payload) = .ok (s, none, [])) ∧
    (∀ h, lookupChannel s.channels rid = some h →
      h.receiverShared.remainingFrameCredit ≠ 0 →
      ¬(h.receiverShared.remainingByteCredit < payload.length % U32) →
      handleFrame now s (.channelData rid payload) =
        .ok ({ s with channels := updateChannel s.channels rid (fun hd =>
          { hd with receiverShared := { hd.receiverShared with
              buffer := hd.receiverShared.buffer ++ [payload] } }) }, none, [])) := by
  refine ⟨?_, ?_, ?_⟩
  · simp only [handleFrame, handleChannelData]
    cases hl : lookupChannel s.channels rid with
    | none => simp [Except.isOk, Except.toBool, hl]
    | some h =>
      by_cases h0 : h.receiverShared.remainingFrameCredit = 0
      · simp [Except.isOk, Except.toBool, h0, hl]
      · by_cases h1 : h.receiverShared.remainingByteCredit < payload.length % U32
        · simp [Except.isOk, Except.toBool, h0, h1, hl]
        · simp [Except.isOk, Except.toBool, h0, h1, hl]
  · intro hl
    simp [handleFrame, handleChannelData, hl]
  · intro h hl h0 h1
    simp [handleFrame, handleChannelData, hl, h0, h1]

/-- Witness for the amended C4 with a one-channel map: a 3-byte payload for
the known channel id 7 is pushed; the unknown id 8 is silently dropped. -/
theorem handleChannelData_spec_witness :
    handleFrame 0
      { ConnState.init with channels := [(7, ChannelHandleSt.init 7 2)] }
      (.channelData 8 [1, 2, 3])
      = .ok ({ ConnState.init with channels := [(7, ChannelHandleSt.init 7 2)] },
          none, []) ∧
    handleFrame 0
      { ConnState.init with channels := [(7, ChannelHandleSt.init 7 2)] }
      (.channelData 7 [1, 2, 3])
      = .ok ({ ConnState.init with channels := [(7,
          { ChannelHandleSt.init 7 2 with receiverShared :=
            { RecvState.init with buffer := [[1, 2, 3]] } })] }, none, []) := by
  constructor
  · exact (handleChannelData_spec 0
      { ConnState.init with channels := [(7, ChannelHandleSt.init 7 2)] }
      8 [1, 2, 3]).2.1 rfl
  · rw [(handleChannelData_spec 0
      { ConnState.init with channels := [(7, ChannelHandleSt.init 7 2)] }
      7 [1, 2, 3]).2.2 (ChannelHandleSt.init 7 2)
      rfl (by decide) (by decide)]
    rfl


/-- The receiver maxima stay within the global caps. -/
def RecvMaxInv (s : RecvState) : Prop :=
  s.maxFrameCredit ≤ CHANNEL_MAX_FRAME_CREDIT ∧ s.maxByteCredit ≤ CHANNEL_MAX_BYTE_CREDIT

theorem pollNextChunk_max (fastFrame fastByte : Bool) (s : RecvState)
    (h1 : s.maxFrameCredit ≤ CHANNEL_MAX_FRAME_CREDIT)
    (h2 : s.maxByteCredit ≤ CHANNEL_MAX_BYTE_CREDIT) :
    (RecvMaxInv (pollNextChunk fastFrame fastByte s).2 ∧
      s.maxFrameCredit ≤ (pollNextChunk fastFrame fastByte s).2.maxFrameCredit ∧
      s.maxByteCredit ≤ (pollNextChunk fastFrame fastByte s).2.maxByteCredit) := by
  simp only [RecvMaxInv]
  simp only [CHANNEL_MAX_FRAME_CREDIT, CHANNEL_MAX_BYTE_CREDIT] at h1 h2
  by_cases hc : s.closed
  · simpa [pollNextChunk, hc, CHANNEL_MAX_FRAME_CREDIT, CHANNEL_MAX_BYTE_CREDIT] using ⟨h1, h2⟩
  · cases hb : s.buffer with
    | nil =>
      simpa [pollNextChunk, hc, hb, CHANNEL_MAX_FRAME_CREDIT, CHANNEL_MAX_BYTE_CREDIT]
        using ⟨h1, h2⟩
    | cons p rest =>
      simp only [pollNextChunk, hc, hb, Bool.false_eq_true, if_false]
      split_ifs <;>
        refine ⟨⟨?_, ?_⟩, ?_, ?_⟩ <;>
          (simp only [U32, CHANNEL_MAX_FRAME_CREDIT, CHANNEL_MAX_BYTE_CREDIT]
           omega)

theorem recvStep_max (op : RecvOp) (s : RecvState) (h : RecvMaxInv s) :
    RecvMaxInv (recvStep op s) ∧
      s.maxFrameCredit ≤ (recvStep op s).maxFrameCredit ∧
      s.maxByteCredit ≤ (recvStep op s).maxByteCredit := by
  obtain ⟨h1, h2⟩ := h
  cases op with
  | dataArrived payload =>
    simp only [recvStep]
    split_ifs <;> exact ⟨⟨h1, h2⟩, le_refl _, le_refl _⟩
  | remoteClosed => exact ⟨⟨h1, h2⟩, le_refl _, le_refl _⟩
  | nextChunk fastFrame fastByte =>
    exact pollNextChunk_max fastFrame fastByte s h1 h2

theorem recvRun_max (ops : List RecvOp) (s : RecvState) (h : RecvMaxInv s) :
    RecvMaxInv (recvRun ops s) ∧
      s.maxFrameCredit ≤ (recvRun ops s).maxFrameCredit ∧
      s.maxByteCredit ≤ (recvRun ops s).maxByteCredit := by
  induction ops generalizing s with
  | nil => exact ⟨h, le_refl _, le_refl _⟩
  | cons op ops ih =>
    obtain ⟨hstep, m1, m2⟩ := recvStep_max op s h
    obtain ⟨hrun, n1, n2⟩ := ih (recvStep op s) hstep
    exact ⟨hrun, le_trans m1 n1, le_trans m2 n2⟩

theorem recvRun_append (ops more : List RecvOp) (s : RecvState) :
    recvRun (ops ++ more) s = recvRun more (recvRun ops s) := by
  simp [recvRun, List.foldl_append]

/-- C5: along every sequence of operations on a channel's receiver state
starting from a fresh channel, `max_frame_credit` and `max_byte_credit` are
monotonically non-decreasing over time and never exceed
`CHANNEL_MAX_FRAME_CREDIT` (1024) and `CHANNEL_MAX_BYTE_CREDIT` (1 GiB). -/
theorem receiver_max_credits_monotone_bounded (ops more : List RecvOp) :
    (recvRun ops RecvState.init).maxFrameCredit
        ≤ (recvRun (ops ++ more) RecvState.init).maxFrameCredit ∧
    (recvRun ops RecvState.init).maxByteCredit
        ≤ (recvRun (ops ++ more) RecvState.init).maxByteCredit ∧
    (recvRun ops RecvState.init).maxFrameCredit ≤ CHANNEL_MAX_FRAME_CREDIT ∧
    (recvRun ops RecvState.init).maxByteCredit ≤ CHANNEL_MAX_BYTE_CREDIT := by
  have hinit : RecvMaxInv RecvState.init := by
    constructor <;> norm_num [RecvState.init, CHANNEL_MAX_FRAME_CREDIT, CHANNEL_MAX_BYTE_CREDIT]
  obtain ⟨hinv, -, -⟩ := recvRun_max ops RecvState.init hinit
  obtain ⟨-, m1, m2⟩ := recvRun_max more (recvRun ops RecvState.init) hinv
  rw [recvRun_append]
  exact ⟨m1, m2, hinv.1, hinv.2⟩


/-- C6: for a `Sender` with no pending chunk, `poll_write` returns a
`BrokenPipe` error when the peer has half-closed the channel; otherwise it
parks and returns `Pending` when fewer than 512 byte credits remain; and
otherwise it stages a pending chunk of exactly
`min(remaining_byte_credit, buf.len())` bytes from the front of `buf` and
returns `Ready` with that count. -/
theorem pollWrite_spec (buf : List Nat) (s : SenderModel) (hp : s.pending = none) :
    (s.shared.closedReason.isSome = true →
      pollWrite buf s = (.ready (.error .brokenPipe), s, [])) ∧
    (s.shared.closedReason = none → s.shared.remainingByteCredit < 512 →
      pollWrite buf s = (.pending, s, [])) ∧
    (s.shared.closedReason = none → 512 ≤ s.shared.remainingByteCredit →
      pollWrite buf s =
        (.ready (.ok (min s.shared.remainingByteCredit buf.length)),
          { s with pending := some (buf.take (min s.shared.remainingByteCredit buf.length)) },
          [])) := by
  refine ⟨?_, ?_, ?_⟩
  · intro hc
    simp [pollWrite, senderPollFlush, pollSendChunk, hc]
  · intro hc hcredit
    simp [pollWrite, senderPollFlush, pollSendChunk, hc, hp, hcredit]
  · intro hc hcredit
    simp [pollWrite, senderPollFlush, pollSendChunk, hc, hp, Nat.not_lt_of_le hcredit]

/-- Witness for C6: a half-closed sender surfaces `BrokenPipe`; an open one
with 1000 remaining byte credits accepts exactly 3 bytes of a 3-byte
buffer. -/
theorem pollWrite_spec_witness :
    pollWrite [1, 2, 3]
      { remoteId := 5, shared := { SenderSharedSt.init 128 16384 with closedReason := some [] },
        pending := none }
      = (.ready (.error .brokenPipe),
        { remoteId := 5, shared := { SenderSharedSt.init 128 16384 with closedReason := some [] },
          pending := none }, []) ∧
    pollWrite [1, 2, 3]
      { remoteId := 5, shared := SenderSharedSt.init 128 1000, pending := none }
      = (.ready (.ok 3),
        { remoteId := 5, shared := SenderSharedSt.init 128 1000,
          pending := some [1, 2, 3] }, []) := by
  constructor
  · exact (pollWrite_spec [1, 2, 3] _ rfl).1 rfl
  · rw [(pollWrite_spec [1, 2, 3]
      { remoteId := 5, shared := SenderSharedSt.init 128 1000, pending := none }
      rfl).2.2 rfl (by norm_num [SenderSharedSt.init])]
    rfl

/-- C7 counterexample: the connection state reached by sending a ping (at
time 5) and handling its pong (at time 7) has no outstanding ping, yet a
second, unsolicited pong (at time 9) is accepted — `handle_pong` only
rejects a pong when no ping has ever been sent (`last_ping == None`), not
when no ping is outstanding. -/
theorem handlePong_unsolicited_accepted :
    (pingStep 5 true ConnState.init).1
        = { ConnState.init with pongReceived := false, lastPing := some 5 } ∧
    handlePong 7 { ConnState.init with pongReceived := false, lastPing := some 5 }
        = .ok { ConnState.init with
            pongReceived := true, lastPing := some 5, smoothenedRtt := some 2 } ∧
    ({ ConnState.init with
        pongReceived := true, lastPing := some 5,
        smoothenedRtt := some 2 } : ConnState).pongReceived = true ∧
    handlePong 9 { ConnState.init with
        pongReceived := true, lastPing := some 5, smoothenedRtt := some 2 }
      = .ok { ConnState.init with
          pongReceived := true, lastPing := some 5, smoothenedRtt := some 1 } := by
  refine ⟨rfl, rfl, rfl, rfl⟩

/-- C7 (amended): receiving a `Pong` is a protocol violation exactly when no
ping has ever been sent on the connection (`last_ping == None`); once a ping
has been sent, every pong — outstanding or not — is accepted, sets
`pong_received`, and updates the smoothed RTT. -/
theorem handlePong_spec (now : Nat) (s : ConnState) :
    (s.lastPing = none →
      handlePong now s = .error ⟨"received pong but no ping has been sent"⟩) ∧
    (∀ t, s.lastPing = some t →
      handlePong now s = .ok { s with
        pongReceived := true
        smoothenedRtt := some (match s.smoothenedRtt with
          | some old => old * 7 / 8 + (now - t) / 8
          | none => now - t) }) := by
  constructor
  · intro h
    simp [handlePong, h]
  · intro t h
    simp [handlePong, h]

/-- Witness for the amended C7: no ping ever sent means violation; a sent
ping at time 3 means the pong at time 11 is accepted with RTT sample 8. -/
theorem handlePong_spec_witness :
    handlePong 11 ConnState.init
        = .error ⟨"received pong but no ping has been sent"⟩ ∧
    handlePong 11 { ConnState.init with pongReceived := false, lastPing := some 3 }
        = .ok { ConnState.init with
            pongReceived := true, lastPing := some 3, smoothenedRtt := some 8 } := by
  constructor
  · exact (handlePong_spec 11 ConnState.init).1 rfl
  · rw [(handlePong_spec 11
      { ConnState.init with pongReceived := false, lastPing := some 3 }).2 3 rfl]
    rfl


/-- C8: in the RPC client's `execute`, a transport I/O failure while writing
or flushing the request is mapped to the `Read` error variant (the source
applies `.map_err(ExecuteError::Read)` on both the `write_all` and the
`flush` call of the sending block), not to the documented `Write` variant;
read-side failures also map to `Read`.  Error value 32 stands for a broken
pipe I/O error. -/
theorem executeSendPart_write_failure_maps_to_read :
    executeSendPart (.error 32) (.ok ()) = .error (.read 32) ∧
    executeSendPart (.ok ()) (.error 32) = .error (.read 32) ∧
    ExecuteError.read 32 ≠ ExecuteError.write 32 ∧
    executeRecvPart (.error 7) (fun _ => .ok []) = .error (.read 7) := by
  refine ⟨rfl, rfl, by decide, rfl⟩

/-- C9: a channel created from an inbound `ChannelAccept`
(`Connection::handle_frame`) or when accepting a `ChannelRequest`
(`Connection::handle_cmd`) ignores the `frame_credit` and `byte_credit`
fields carried in the frame: the new channel's sender state always starts
with exactly 128 remaining frame credits and 16384 remaining byte credits,
and its receiver state with the same fixed initial maxima and remaining
credits, for every credit value in the frame. -/
theorem channelAccept_ignores_frame_credits (now : Nat) (s : ConnState)
    (rid sid fc bc fc' bc' : Nat)
    (hpend : s.pendingRequests.contains rid = true) :
    (handleFrame now s (.channelAccept rid sid fc bc)
        = handleFrame now s (.channelAccept rid sid fc' bc')) ∧
    (handleFrame now s (.channelAccept rid sid fc bc)
        = .ok ({ s with
            channels := (rid, ChannelHandleSt.init rid sid) :: s.channels
            pendingRequests := s.pendingRequests.filter (fun id => id ≠ rid) },
          none, [])) ∧
    ((handleCmd s (.acceptChannel (.channelAccept rid sid fc bc))).1
        = (handleCmd s (.acceptChannel (.channelAccept rid sid fc' bc'))).1) ∧
    ((handleCmd s (.acceptChannel (.channelAccept rid sid fc bc))).1.channels
        = (s.nextChannelId, ChannelHandleSt.init s.nextChannelId rid) :: s.channels) ∧
    (ChannelHandleSt.init rid sid).senderShared.remainingFrameCredit = 128 ∧
    (ChannelHandleSt.init rid sid).senderShared.remainingByteCredit = 16384 ∧
    (ChannelHandleSt.init rid sid).receiverShared.maxFrameCredit = 128 ∧
    (ChannelHandleSt.init rid sid).receiverShared.maxByteCredit = 16384 ∧
    (ChannelHandleSt.init rid sid).receiverShared.remainingFrameCredit = 128 ∧
    (ChannelHandleSt.init rid sid).receiverShared.remainingByteCredit = 16384 := by
  refine ⟨rfl, ?_, rfl, rfl, rfl, rfl, rfl, rfl, rfl, rfl⟩
  simp only [handleFrame]
  rw [if_pos hpend]

/-- Witness for C9: accepting channel id 4 with advertised credits
(777, 888) produces the same fresh channel as with credits (0, 0). -/
theorem channelAccept_ignores_frame_credits_witness :
    (handleFrame 0 { ConnState.init with pendingRequests := [4] }
        (.channelAccept 4 9 777 888)
      = handleFrame 0 { ConnState.init with pendingRequests := [4] }
        (.channelAccept 4 9 0 0)) ∧
    (handleFrame 0 { ConnState.init with pendingRequests := [4] }
        (.channelAccept 4 9 777 888)
      = .ok ({ ConnState.init with
          channels := [(4, ChannelHandleSt.init 4 9)], pendingRequests := [] },
        none, [])) := by
  have h := channelAccept_ignores_frame_credits 0
    { ConnState.init with pendingRequests := [4] } 4 9 777 888 0 0 (by decide)
  refine ⟨h.1, ?_⟩
  rw [h.2.1]
  rfl

/-- C10: the connection never verifies the magic field of an inbound
`Hello` frame: every message with tag `0x00` and at least 17 bytes parses as
a `Hello`, and handling it emits the `Connected` event and leaves the state
unchanged — including when its 16 magic bytes differ from
`PROTOCOL_MAGIC`. -/
theorem hello_magic_not_verified (bs : List Nat) (now : Nat) (s : ConnState)
    (htag : bs.head? = some 0) (hlen : 17 ≤ bs.length)
    (hmagic : (bs.drop 1).take 16 ≠ PROTOCOL_MAGIC) :
    parse bs = .ok (.hello ((bs.drop 1).take 16) (bs.drop 17)) ∧
    handleFrame now s (.hello ((bs.drop 1).take 16) (bs.drop 17))
      = .ok (s, some .connected, []) := by
  cases bs with
  | nil => simp at htag
  | cons b rest =>
    have hb : b = 0 := by simpa using htag
    subst hb
    have hlen2 : ¬((0 :: rest).length < 17) := by
      omega
    constructor
    · show (if (0 :: rest).length < 17
          then (Except.error (InvalidFrameError.invalidLength 17)
            : Except InvalidFrameError FrameVal)
          else Except.ok (FrameVal.hello (rest.take 16) (rest.drop 16)))
        = _
      rw [if_neg hlen2]
      rfl
    · rfl

/-- Witness for C10: an 18-byte `Hello` whose magic bytes are all `0xAA`
(different from `PROTOCOL_MAGIC`) parses and produces `Connected`. -/
theorem hello_magic_not_verified_witness :
    parse (0 :: (List.replicate 16 170 ++ [5]))
        = .ok (.hello (((0 :: (List.replicate 16 170 ++ [5])).drop 1).take 16)
            ((0 :: (List.replicate 16 170 ++ [5])).drop 17)) ∧
    handleFrame 0 ConnState.init
        (.hello (((0 :: (List.replicate 16 170 ++ [5])).drop 1).take 16)
          ((0 :: (List.replicate 16 170 ++ [5])).drop 17))
      = .ok (ConnState.init, some .connected, []) :=
  hello_magic_not_verified (0 :: (List.replicate 16 170 ++ [5])) 0 ConnState.init
    rfl (by decide) (by decide)

end Nexigon
